import Mathlib

/-!
Verification of the xSysInfo diagnostic utility (Amiga system information
program). Shallow embedding of the C sources: machine integers (ULONG,
UBYTE) are modelled as `Nat` with explicit bounds / `% 2^32` where overflow
matters, hardware/OS reads are modelled as explicit oracles, and the
relevant functions of `benchmark.c`, `main.c`, `battmem.c`, `cache.c`,
`software.c` and `hardware.c` are translated definition by definition.
-/

namespace XSysInfo

/-- Maximum value of a 32-bit `ULONG` (`ULONG_MAX` from limits.h on m68k). -/
def ULONG_MAX : Nat := 4294967295

/-! ## benchmark.c: calculate_mips -/

/-- `calculate_mips` from `src/benchmark.c` lines 559-567: the Dhrystone
rate is multiplied by 100 in 64-bit arithmetic, divided by 1757, and
saturated at `ULONG_MAX` before the 32-bit result is returned.  For
`dhrystones < 2^32` the intermediate `dhrystones * 100` fits in 64 bits,
so plain `Nat` arithmetic is exact. -/
def calculate_mips (dhrystones : Nat) : Nat :=
  let scaled := dhrystones * 100 / 1757
  if scaled > ULONG_MAX then ULONG_MAX else scaled

/-! ## main.c: determine_mem_location -/

/-- The `MemoryLocation` enumeration used by `determine_mem_location` and
`get_location_string` in `src/main.c` (declared in the project header). -/
inductive MemoryLocation where
  | LOC_ROM
  | LOC_CHIP_RAM
  | LOC_24BIT_RAM
  | LOC_32BIT_RAM
  | LOC_KICKSTART
deriving DecidableEq, Repr

/-- `determine_mem_location` from `src/main.c` lines 975-997.  The ROM
windows ($F80000-$FFFFFF and $E00000-$E7FFFF) are checked first, then
chip RAM (below $200000), then 24-bit RAM (below $01000000), else 32-bit
RAM. -/
def determine_mem_location (address : Nat) : MemoryLocation :=
  if (0xF80000 ≤ address ∧ address ≤ 0xFFFFFF) ∨
     (0xE00000 ≤ address ∧ address < 0xE80000) then
    MemoryLocation.LOC_ROM
  else if address < 0x200000 then
    MemoryLocation.LOC_CHIP_RAM
  else if address < 0x01000000 then
    MemoryLocation.LOC_24BIT_RAM
  else
    MemoryLocation.LOC_32BIT_RAM

/-! ## battmem.c: battery-backed configuration memory -/

/-- The seven named battery-memory fields plus the SCSI host ID, i.e. the
bit-address/length pairs (`BATTMEM_*_ADDR`/`_LEN`) used by `readBattMem`
and `writeBattMem` in `src/battmem.c`. -/
inductive BattField where
  | amigaAmnesia
  | sharedAmnesia
  | scsiTimeout
  | scsiLuns
  | scsiSyncXfer
  | scsiFastSync
  | scsiTagQueues
  | scsiHostId
deriving DecidableEq, Repr

/-- `BattMemData` from `src/battmem.h` (the field name `fast_sync_ransfer`
is spelled as in the source).  `scsi_id` is an `unsigned char`. -/
structure BattMemData where
  valid_data : Bool := false
  amnesia_amiga : Bool := false
  amnesia_shared : Bool := false
  long_timeout : Bool := false
  scan_luns : Bool := false
  sync_transfer : Bool := false
  fast_sync_ransfer : Bool := false
  tagged_queuing : Bool := false
  scsi_id : Nat := 0
deriving DecidableEq, Repr

/-- `readBattMem` from `src/battmem.c` lines 45-115.  The platform resource
is modelled by a read oracle: `reads f = some data` when `ReadBattMem`
succeeds for field `f` (returning `data`), `none` when it fails.  Each
failed read sets the overall result to `FALSE` — except the scan-LUNs
read, whose `if` has no `else` branch in the source. -/
def readBattMem (reads : BattField → Option Nat) (dest : BattMemData) :
    Bool × BattMemData :=
  let result := true
  let (result, dest) :=
    match reads BattField.amigaAmnesia with
    | some data => (result, { dest with amnesia_amiga := (data &&& 1) == 1 })
    | none => (false, dest)
  let (result, dest) :=
    match reads BattField.sharedAmnesia with
    | some data => (result, { dest with amnesia_shared := (data &&& 1) == 1 })
    | none => (false, dest)
  let (result, dest) :=
    match reads BattField.scsiTimeout with
    | some data => (result, { dest with long_timeout := (data &&& 1) == 1 })
    | none => (false, dest)
  let (result, dest) :=
    match reads BattField.scsiLuns with
    | some data => (result, { dest with scan_luns := (data &&& 1) == 1 })
    | none => (result, dest)
  let (result, dest) :=
    match reads BattField.scsiSyncXfer with
    | some data => (result, { dest with sync_transfer := (data &&& 1) == 1 })
    | none => (false, dest)
  let (result, dest) :=
    match reads BattField.scsiFastSync with
    | some data => (result, { dest with fast_sync_ransfer := (data &&& 1) == 1 })
    | none => (false, dest)
  let (result, dest) :=
    match reads BattField.scsiTagQueues with
    | some data => (result, { dest with tagged_queuing := (data &&& 1) == 1 })
    | none => (false, dest)
  let (result, dest) :=
    match reads BattField.scsiHostId with
    | some data => (result, { dest with scsi_id := (data &&& 7) ^^^ 7 })
    | none => (false, dest)
  (result, dest)

/-- The persistent battery-memory contents, one stored value per field. -/
structure BattStore where
  amiga_amnesia : Nat := 0
  shared_amnesia : Nat := 0
  scsi_timeout : Nat := 0
  scsi_luns : Nat := 0
  scsi_sync_xfer : Nat := 0
  scsi_fast_sync : Nat := 0
  scsi_tag_queues : Nat := 0
  scsi_host_id : Nat := 0
deriving DecidableEq, Repr

/-- The value written for a boolean field (`Data = flag ? 1 : 0`). -/
def boolData (b : Bool) : Nat := if b then 1 else 0

/-- `writeBattMem` from `src/battmem.c` lines 116-163.  `writeOk f` models
whether `WriteBattMem` succeeds for field `f`; a failed write leaves the
stored value unchanged.  The five boolean SCSI fields are written
unconditionally and AND their outcome into `result`; the host-ID field is
written only when `src.scsi_id < 8` (its outcome is not checked); and on
overall success a `1` marker is written to both amnesia fields. -/
def writeBattMem (writeOk : BattField → Bool) (store : BattStore)
    (src : BattMemData) : Bool × BattStore :=
  let result := true
  let result := result && writeOk BattField.scsiTimeout
  let store := if writeOk BattField.scsiTimeout then
      { store with scsi_timeout := boolData src.long_timeout } else store
  let result := result && writeOk BattField.scsiLuns
  let store := if writeOk BattField.scsiLuns then
      { store with scsi_luns := boolData src.scan_luns } else store
  let result := result && writeOk BattField.scsiSyncXfer
  let store := if writeOk BattField.scsiSyncXfer then
      { store with scsi_sync_xfer := boolData src.sync_transfer } else store
  let result := result && writeOk BattField.scsiFastSync
  let store := if writeOk BattField.scsiFastSync then
      { store with scsi_fast_sync := boolData src.fast_sync_ransfer } else store
  let result := result && writeOk BattField.scsiTagQueues
  let store := if writeOk BattField.scsiTagQueues then
      { store with scsi_tag_queues := boolData src.tagged_queuing } else store
  let store := if src.scsi_id < 8 then
      (if writeOk BattField.scsiHostId then
        { store with scsi_host_id := src.scsi_id ^^^ 7 } else store)
    else store
  let store := if result then
      (let store := if writeOk BattField.amigaAmnesia then
          { store with amiga_amnesia := 1 } else store
       if writeOk BattField.sharedAmnesia then
          { store with shared_amnesia := 1 } else store)
    else store
  (result, store)

/-- Read oracle over a concrete store in which every read succeeds and
returns the stored value. -/
def storeReads (s : BattStore) : BattField → Option Nat
  | BattField.amigaAmnesia => some s.amiga_amnesia
  | BattField.sharedAmnesia => some s.shared_amnesia
  | BattField.scsiTimeout => some s.scsi_timeout
  | BattField.scsiLuns => some s.scsi_luns
  | BattField.scsiSyncXfer => some s.scsi_sync_xfer
  | BattField.scsiFastSync => some s.scsi_fast_sync
  | BattField.scsiTagQueues => some s.scsi_tag_queues
  | BattField.scsiHostId => some s.scsi_host_id

/-! ## hardware.c: detect_batt_mem -/

/-- The `ClockType` enumeration from `src/hardware.h`. -/
inductive ClockType where
  | CLOCK_NONE
  | CLOCK_RP5C01
  | CLOCK_MSM6242
  | CLOCK_RF5C01
  | CLOCK_UNKNOWN
deriving DecidableEq, Repr

/-- `detect_batt_mem` from `src/hardware.c` lines 546-558, returning the
final `hw_info.battMemData.valid_data`.  Inside the gate the result of
`readBattMem` is stored and then immediately overwritten with `TRUE`. -/
def detect_batt_mem (clock_type : ClockType) (ramsey_rev : Nat)
    (battMemOpens : Bool) (readResult : Bool) : Bool :=
  Id.run do
    let mut valid_data := false
    if clock_type = ClockType.CLOCK_RP5C01 ∧ 0 < ramsey_rev ∧
        battMemOpens = true then
      valid_data := readResult
      valid_data := true
    return valid_data

/-! ## benchmark.c: run_dhrystone adaptive iteration loop -/

/-- `min_runtime_us` from `run_dhrystone` (target of ~2 seconds). -/
def dhry_min_runtime_us : Nat := 2000000

/-- `max_loops` from `run_dhrystone` (upper bound from the original
Dhrystone sources). -/
def dhry_max_loops : Nat := 5000000

/-- `max_attempts` from `run_dhrystone`. -/
def dhry_max_attempts : Nat := 3

/-- The iteration-count update of `run_dhrystone` (`src/benchmark.c` lines
522-536), mapping the measured elapsed time and the current `loops` to the
next attempt's `loops`.  `loops` is a `ULONG`, so the `loops *= 16`
multiplication wraps at `2^32`; the scaled value is computed in 64-bit
arithmetic, capped at `max_loops`, and then cast back to `ULONG`. -/
def dhry_next_loops (elapsed loops : Nat) : Nat :=
  if elapsed < 100 then
    let loops := loops * 16 % 2 ^ 32
    if loops > dhry_max_loops then dhry_max_loops else loops
  else
    let scaled := dhry_min_runtime_us * loops / elapsed + loops
    let scaled := if scaled ≤ loops then 2 * loops else scaled
    let scaled := if scaled > dhry_max_loops then dhry_max_loops else scaled
    scaled % 2 ^ 32

/-- The attempt loop of `run_dhrystone` (`src/benchmark.c` lines 507-537),
with the measured elapsed time of attempt `k` supplied by the oracle
`elapsedOf k`.  Returns the number of times the Dhrystone benchmark is
executed: the loop breaks early once the runtime target or the loop cap is
reached, and otherwise rescales `loops` and runs again, for at most
`max_attempts` attempts. -/
def dhry_attempt_loop (elapsedOf : Nat → Nat) :
    Nat → Nat → Nat → Nat
  | 0, attempt, _ => attempt
  | remaining + 1, attempt, loops =>
    let elapsed := elapsedOf attempt
    if elapsed ≥ dhry_min_runtime_us ∨ loops ≥ dhry_max_loops then
      attempt + 1
    else
      dhry_attempt_loop elapsedOf remaining (attempt + 1)
        (dhry_next_loops elapsed loops)

/-- Number of Dhrystone executions performed by `run_dhrystone` starting
from the initial `default_loops = 1000`, for a given elapsed-time oracle
(the `remaining` counter starts at `max_attempts`, mirroring
`for (attempt = 0; attempt < max_attempts; attempt++)`). -/
def run_dhrystone_attempts (elapsedOf : Nat → Nat) : Nat :=
  dhry_attempt_loop elapsedOf dhry_max_attempts 0 1000

/-! ## benchmark.c: generate_comment (benchmark variant) -/

/-- The nine descriptive benchmark tiers plus the not-available text, i.e.
the `MSG_COMMENT_*`/`MSG_NA` message selected by `generate_comment` in
`src/benchmark.c` lines 862-899. -/
inductive CommentTier where
  | NA
  | DEFAULT
  | CLASSIC
  | GOOD
  | FAST
  | VERY_FAST
  | BLAZING
  | RIDICULUS
  | LUDICROUS
  | WARP11
deriving DecidableEq, Repr

/-- Position of each tier in the ascending threshold chain (`NA` excluded,
`DEFAULT` is the below-baseline tier). -/
def CommentTier.rank : CommentTier → Nat
  | NA => 0
  | DEFAULT => 0
  | CLASSIC => 1
  | GOOD => 2
  | FAST => 3
  | VERY_FAST => 4
  | BLAZING => 5
  | RIDICULUS => 6
  | LUDICROUS => 7
  | WARP11 => 8

/-- `generate_comment` from `src/benchmark.c` lines 862-899: an ascending
chain of strict greater-than comparisons, each successively overwriting
the previous selection, defaulting to the below-baseline tier, and the
not-available text when no valid benchmark has run. -/
def generate_comment (benchmarks_valid : Bool) (dhrystones : Nat) :
    CommentTier :=
  if benchmarks_valid then
    let comment := CommentTier.DEFAULT
    let comment := if dhrystones > 980 then CommentTier.CLASSIC else comment
    let comment := if dhrystones > 1300 then CommentTier.GOOD else comment
    let comment := if dhrystones > 2000 then CommentTier.FAST else comment
    let comment := if dhrystones > 7000 then CommentTier.VERY_FAST else comment
    let comment := if dhrystones > 30000 then CommentTier.BLAZING else comment
    let comment := if dhrystones > 80000 then CommentTier.RIDICULUS else comment
    let comment := if dhrystones > 130000 then CommentTier.LUDICROUS else comment
    let comment := if dhrystones > 200000 then CommentTier.WARP11 else comment
    comment
  else
    CommentTier.NA

/-! ## cache.c: cache-control bit-layout conversion -/

/-- The `CPUType` enumeration from `src/hardware.h`.  The provided header
lacks the `CPU_68080` member used by `src/cache.c` and `src/benchmark.c`;
following `src/cpu.h`, where `ASM_CPU_68080` directly follows
`ASM_CPU_68LC060`, it is placed between `CPU_68LC060` and `CPU_EMU`. -/
inductive CPUType where
  | CPU_68000
  | CPU_68010
  | CPU_68020
  | CPU_68EC020
  | CPU_68030
  | CPU_68EC030
  | CPU_68040
  | CPU_68LC040
  | CPU_68EC040
  | CPU_68060
  | CPU_68EC060
  | CPU_68LC060
  | CPU_68080
  | CPU_EMU
  | CPU_UNKNOWN
deriving DecidableEq, Repr

/-- The C enumeration value of each `CPUType` member (used for the ordered
comparisons `cpu_type >= CPU_68040 && cpu_type <= CPU_68080`). -/
def CPUType.code : CPUType → Nat
  | CPU_68000 => 0
  | CPU_68010 => 1
  | CPU_68020 => 2
  | CPU_68EC020 => 3
  | CPU_68030 => 4
  | CPU_68EC030 => 5
  | CPU_68040 => 6
  | CPU_68LC040 => 7
  | CPU_68EC040 => 8
  | CPU_68060 => 9
  | CPU_68EC060 => 10
  | CPU_68LC060 => 11
  | CPU_68080 => 12
  | CPU_EMU => 13
  | CPU_UNKNOWN => 14

/-- `CACRF_EnableI` from the OS `exec` headers (bit 0 of the 68030-layout
cache-control register: enable instruction cache). -/
def CACRF_EnableI : Nat := 0x1

/-- `CACRF_IBE` from the OS `exec` headers (bit 4: instruction burst). -/
def CACRF_IBE : Nat := 0x10

/-- `CACRF_EnableD` from the OS `exec` headers (bit 8: enable data
cache). -/
def CACRF_EnableD : Nat := 0x100

/-- `CACRF_DBE` from the OS `exec` headers (bit 12: data burst). -/
def CACRF_DBE : Nat := 0x1000

/-- `CACRF_CopyBack` from the OS `exec` headers (bit 31: copyback). -/
def CACRF_CopyBack : Nat := 0x80000000

/-- Modelled from the spec: the later (68040-style) layout's single
combined instruction-cache bit, `CACRF_ICACHE040`.  Its defining header is
part of this repository but not under `src/`; the MC68040 cache-control
register's instruction-cache enable is bit 15, distinct from the five
68030-layout bits above, which is all the claims depend on. -/
def CACRF_ICACHE040 : Nat := 0x8000

/-- The guard `cpu_type >= CPU_68040 && cpu_type <= CPU_68080` used by the
three conversion helpers in `src/cache.c`. -/
def cpu_is_040_to_080 (cpu : CPUType) : Prop :=
  CPUType.CPU_68040.code ≤ cpu.code ∧ cpu.code ≤ CPUType.CPU_68080.code

instance (cpu : CPUType) : Decidable (cpu_is_040_to_080 cpu) :=
  inferInstanceAs (Decidable (_ ∧ _))

/-- `convert68030to68040` from `src/cache.c` lines 23-41: on 68040-to-68080
CPUs, any set bit of the data-cache group (copyback, enable-data,
data-burst) yields the copyback bit, any set bit of the instruction group
(enable-instruction, instruction-burst) yields the 68040 instruction-cache
bit, and all bits outside the six cache positions are kept (`& ~mask` on a
32-bit `ULONG` is `&&& (ULONG_MAX ^^^ mask)`); on other CPUs the input is
returned unchanged. -/
def convert68030to68040 (cpu : CPUType) (input : Nat) : Nat :=
  if cpu_is_040_to_080 cpu then
    let output : Nat := 0
    let output :=
      if input &&& (CACRF_CopyBack ||| CACRF_EnableD ||| CACRF_DBE) > 0 then
        CACRF_CopyBack
      else output
    let output :=
      if input &&& (CACRF_EnableI ||| CACRF_IBE) > 0 then
        output ||| CACRF_ICACHE040
      else output
    let keeper := input &&&
      (ULONG_MAX ^^^ (CACRF_CopyBack ||| CACRF_EnableD ||| CACRF_DBE |||
        CACRF_EnableI ||| CACRF_IBE ||| CACRF_ICACHE040))
    output ||| keeper
  else input

/-- `convert68040to68030` from `src/cache.c` lines 43-60: on 68040-to-68080
CPUs the copyback bit expands to the full data-cache group and the 68040
instruction-cache bit to the full instruction group, keeping all bits
outside the six cache positions; on other CPUs the input is returned
unchanged. -/
def convert68040to68030 (cpu : CPUType) (input : Nat) : Nat :=
  if cpu_is_040_to_080 cpu then
    let output : Nat := 0
    let output :=
      if input &&& CACRF_CopyBack > 0 then
        CACRF_CopyBack ||| CACRF_EnableD ||| CACRF_DBE
      else output
    let output :=
      if input &&& CACRF_ICACHE040 > 0 then
        output ||| CACRF_EnableI ||| CACRF_IBE
      else output
    let keeper := input &&&
      (ULONG_MAX ^^^ (CACRF_CopyBack ||| CACRF_EnableD ||| CACRF_DBE |||
        CACRF_EnableI ||| CACRF_IBE ||| CACRF_ICACHE040))
    output ||| keeper
  else input

/-! ## main.c: text-mode report -/

/-- The `FPUType` enumeration from `src/hardware.h` (extended, like
`CPUType`, with the `FPU_68080` member used by `src/benchmark.c`). -/
inductive FPUType where
  | FPU_NONE
  | FPU_68881
  | FPU_68882
  | FPU_68040
  | FPU_68060
  | FPU_68080
  | FPU_UNKNOWN
deriving DecidableEq, Repr

/-- The fields of `HardwareInfo` read by the text-mode report in
`src/main.c` lines 328-406 (`fpu_enabled` is the "FPU actually usable"
flag set by `enumerate_libraries` when the matching emulation library is
loaded). -/
structure HwReportInfo where
  cpu_string : String
  cpu_mhz : Nat
  mmu_string : String
  mmu_enabled : Bool
  fpu_string : String
  fpu_mhz : Nat
  fpu_type : FPUType
  fpu_enabled : Bool

/-- `BenchmarkResults` from `src/benchmark.h`. -/
structure BenchmarkResults where
  dhrystones : Nat
  mips : Nat
  mflops : Nat
  chip_speed : Nat
  fast_speed : Nat
  rom_speed : Nat
  benchmarks_valid : Bool

/-- How a report line's value is rendered: via `format_scaled` (×100
fixed-point), as a raw `%lu` integer, as a YES/NO word, or as the
`MSG_NA` ("N/A") text. -/
inductive ReportValue where
  | scaled (v : Nat)
  | raw (v : Nat)
  | yesno (b : Bool)
  | na
deriving DecidableEq, Repr

/-- One label/value line of the text-mode report (`name` is the dynamic
name printed inside the line, such as the CPU name; empty when the line
has none). -/
structure ReportLine where
  label : String
  name : String
  value : ReportValue
deriving DecidableEq, Repr

/-- The plain-text report printed by `main` in text mode (`src/main.c`
lines 328-406), as the ordered list of label/value lines: CPU (scaled MHz
when positive, else N/A), MMU (enabled YES/NO), FPU (scaled MHz when
positive, else N/A), Dhrystones (raw value when benchmarks are valid),
MIPS (scaled when valid), MFLOPS (scaled only when an FPU is present,
benchmarks are valid and the FPU is confirmed usable), then the chip,
fast and ROM memory speeds (each `speed / 10000` scaled when valid and
non-zero, else N/A). -/
def text_report (hw : HwReportInfo) (br : BenchmarkResults) :
    List ReportLine :=
  [{ label := "CPU", name := hw.cpu_string,
     value := if hw.cpu_mhz > 0 then ReportValue.scaled hw.cpu_mhz
       else ReportValue.na },
   { label := "MMU", name := hw.mmu_string,
     value := ReportValue.yesno hw.mmu_enabled },
   { label := "FPU", name := hw.fpu_string,
     value := if hw.fpu_mhz > 0 then ReportValue.scaled hw.fpu_mhz
       else ReportValue.na },
   { label := "Dhrystones", name := "",
     value := if br.benchmarks_valid then ReportValue.raw br.dhrystones
       else ReportValue.na },
   { label := "MIPS", name := "",
     value := if br.benchmarks_valid then ReportValue.scaled br.mips
       else ReportValue.na },
   { label := "MFLOPS", name := "",
     value := if hw.fpu_type ≠ FPUType.FPU_NONE ∧ br.benchmarks_valid ∧
         hw.fpu_enabled then
       ReportValue.scaled br.mflops
     else ReportValue.na },
   { label := "Chipram speed", name := "",
     value := if br.benchmarks_valid ∧ br.chip_speed > 0 then
       ReportValue.scaled (br.chip_speed / 10000)
     else ReportValue.na },
   { label := "Fastram speed", name := "",
     value := if br.benchmarks_valid ∧ br.fast_speed > 0 then
       ReportValue.scaled (br.fast_speed / 10000)
     else ReportValue.na },
   { label := "ROM speed", name := "",
     value := if br.benchmarks_valid ∧ br.rom_speed > 0 then
       ReportValue.scaled (br.rom_speed / 10000)
     else ReportValue.na }]

/-! ## software.c: kickstart pseudo-entries -/

/-- `SoftwareEntry` from the project header, as used by
`enumerate_libraries` in `src/software.c`. -/
structure SoftwareEntry where
  name : String
  address : Nat
  version : Nat
  revision : Nat
  location : MemoryLocation
deriving DecidableEq, Repr

/-- The boot-ROM fields of `HardwareInfo` used by the kickstart
pseudo-entries (`kickstart_size` is in kilobytes: 256 or 512). -/
structure KickstartInfo where
  kickstart_version : Nat
  kickstart_revision : Nat
  kickstart_patch_version : Nat
  kickstart_patch_revision : Nat
  kickstart_size : Nat
deriving DecidableEq, Repr

/-- The synthetic "kickstart" entry built in `src/software.c` lines
181-196: base ROM version/revision, `LOC_KICKSTART`, ROM base `$F80000`
for a 512K ROM and `$FC0000` for a 256K ROM. -/
def kickstart_entry (hw : KickstartInfo) : SoftwareEntry :=
  { name := "kickstart"
    address := if hw.kickstart_size ≥ 512 then 0x00F80000 else 0x00FC0000
    version := hw.kickstart_version
    revision := hw.kickstart_revision
    location := MemoryLocation.LOC_KICKSTART }

/-- The synthetic "kick update" entry built in `src/software.c` lines
161-177: patch version/revision, same address rule as the base entry. -/
def kick_update_entry (hw : KickstartInfo) : SoftwareEntry :=
  { name := "kick update"
    address := if hw.kickstart_size ≥ 512 then 0x00F80000 else 0x00FC0000
    version := hw.kickstart_patch_version
    revision := hw.kickstart_patch_revision
    location := MemoryLocation.LOC_KICKSTART }

/-- The soft-kick condition of `src/software.c` lines 155-160: patch
version and revision both differ from the base ones, both are non-zero,
and the base ROM version is at least 40 (Kickstart 3.1). -/
def soft_kick_detected (hw : KickstartInfo) : Prop :=
  hw.kickstart_version ≠ hw.kickstart_patch_version ∧
  hw.kickstart_revision ≠ hw.kickstart_patch_revision ∧
  hw.kickstart_patch_version ≠ 0 ∧
  hw.kickstart_patch_revision ≠ 0 ∧
  hw.kickstart_version ≥ 40

instance (hw : KickstartInfo) : Decidable (soft_kick_detected hw) :=
  inferInstanceAs (Decidable (_ ∧ _))

/-- The pseudo-entry phase of `enumerate_libraries` (`src/software.c`
lines 152-197), applied to the already-sorted entry list: when the list
has room for one more entry, the "kick update" entry is inserted at
position 0 under the soft-kick condition, and then the "kickstart" entry
is inserted at position 0 unconditionally (shifting the update entry to
position 1); `maxEntries` is `MAX_SOFTWARE_ENTRIES`. -/
def prepend_kick_entries (maxEntries : Nat) (hw : KickstartInfo)
    (entries : List SoftwareEntry) : List SoftwareEntry :=
  if entries.length + 1 < maxEntries then
    let entries :=
      if soft_kick_detected hw then kick_update_entry hw :: entries
      else entries
    kickstart_entry hw :: entries
  else entries

end XSysInfo

namespace XSysInfo

/-- C1: For every non-negative 32-bit Dhrystone rate `d`, `calculate_mips d`
equals `⌊d * 100 / 1757⌋` saturated at the maximum representable 32-bit
value; in particular `calculate_mips 1757 = 100` and
`calculate_mips 91000 = 5179`. -/
theorem calculate_mips_spec (d : Nat) (h : d ≤ ULONG_MAX) :
    calculate_mips d = min (d * 100 / 1757) ULONG_MAX ∧
    calculate_mips 1757 = 100 ∧ calculate_mips 91000 = 5179 := by
  refine ⟨?_, by decide, by decide⟩
  unfold calculate_mips ULONG_MAX at *
  have h1 : d * 100 ≤ 429496729500 := by omega
  have h2 : d * 100 / 1757 ≤ 429496729500 / 1757 := Nat.div_le_div_right h1
  have h3 : (429496729500 : Nat) / 1757 = 244448906 := by norm_num
  have hlt : d * 100 / 1757 ≤ 4294967295 := by omega
  simp only [gt_iff_lt, Nat.not_lt.mpr hlt, if_false]
  omega

/-- Witness for `calculate_mips_spec` at `d = 91000`. -/
theorem calculate_mips_spec_witness :
    91000 ≤ ULONG_MAX ∧
    (calculate_mips 91000 = min (91000 * 100 / 1757) ULONG_MAX ∧
     calculate_mips 1757 = 100 ∧ calculate_mips 91000 = 5179) :=
  ⟨by decide, calculate_mips_spec 91000 (by decide)⟩

/-- C2 counterexample: the claim states that address `0x00FFFFFF` is
classified as 24-bit RAM and `0xE80000` as 32-bit RAM.  The code checks
the ROM window `$F80000-$FFFFFF` first, so `0x00FFFFFF` classifies as ROM,
and `0xE80000` is below `0x01000000`, so it classifies as 24-bit RAM. -/
theorem determine_mem_location_claim_cex :
    determine_mem_location 0x00FFFFFF = MemoryLocation.LOC_ROM ∧
    MemoryLocation.LOC_ROM ≠ MemoryLocation.LOC_24BIT_RAM ∧
    determine_mem_location 0xE80000 = MemoryLocation.LOC_24BIT_RAM ∧
    MemoryLocation.LOC_24BIT_RAM ≠ MemoryLocation.LOC_32BIT_RAM := by
  refine ⟨by decide, by decide, by decide, by decide⟩

/-- C2 (amended): the memory-location classification maps `0x000000` and
`0x1FFFFF` to chip RAM; `0x200000` to 24-bit RAM; `0x00FFFFFF` to ROM (it
lies inside the `$F80000-$FFFFFF` window, which is checked first);
`0x01000000` to 32-bit RAM; `0xF80000` and `0xE00000` to ROM; `0xE80000`
(just past the extended ROM window) to 24-bit RAM; and every address is
classified into one of the four locations (never the pseudo-location
`LOC_KICKSTART`). -/
theorem determine_mem_location_spec :
    determine_mem_location 0x000000 = MemoryLocation.LOC_CHIP_RAM ∧
    determine_mem_location 0x1FFFFF = MemoryLocation.LOC_CHIP_RAM ∧
    determine_mem_location 0x200000 = MemoryLocation.LOC_24BIT_RAM ∧
    determine_mem_location 0x00FFFFFF = MemoryLocation.LOC_ROM ∧
    determine_mem_location 0x01000000 = MemoryLocation.LOC_32BIT_RAM ∧
    determine_mem_location 0xF80000 = MemoryLocation.LOC_ROM ∧
    determine_mem_location 0xE00000 = MemoryLocation.LOC_ROM ∧
    determine_mem_location 0xE80000 = MemoryLocation.LOC_24BIT_RAM ∧
    ∀ a : Nat,
      determine_mem_location a = MemoryLocation.LOC_ROM ∨
      determine_mem_location a = MemoryLocation.LOC_CHIP_RAM ∨
      determine_mem_location a = MemoryLocation.LOC_24BIT_RAM ∨
      determine_mem_location a = MemoryLocation.LOC_32BIT_RAM := by
  refine ⟨by decide, by decide, by decide, by decide, by decide, by decide,
          by decide, by decide, ?_⟩
  intro a
  unfold determine_mem_location
  split
  · exact Or.inl rfl
  · split
    · exact Or.inr (Or.inl rfl)
    · split
      · exact Or.inr (Or.inr (Or.inl rfl))
      · exact Or.inr (Or.inr (Or.inr rfl))

set_option maxHeartbeats 4000000 in
/-- C3: `readBattMem` returns success if and only if the amnesia-amiga,
amnesia-shared, SCSI-timeout, sync-transfer, fast-sync, tagged-queuing and
host-ID reads all succeed, for every combination of per-field read
outcomes and regardless of the scan-LUNs outcome. -/
theorem readBattMem_success_iff (reads : BattField → Option Nat)
    (dest : BattMemData) :
    (readBattMem reads dest).1 = true ↔
      ((reads BattField.amigaAmnesia).isSome ∧
       (reads BattField.sharedAmnesia).isSome ∧
       (reads BattField.scsiTimeout).isSome ∧
       (reads BattField.scsiSyncXfer).isSome ∧
       (reads BattField.scsiFastSync).isSome ∧
       (reads BattField.scsiTagQueues).isSome ∧
       (reads BattField.scsiHostId).isSome) := by
  unfold readBattMem
  cases h1 : reads BattField.amigaAmnesia <;>
    cases h2 : reads BattField.sharedAmnesia <;>
    cases h3 : reads BattField.scsiTimeout <;>
    cases h4 : reads BattField.scsiLuns <;>
    cases h5 : reads BattField.scsiSyncXfer <;>
    cases h6 : reads BattField.scsiFastSync <;>
    cases h7 : reads BattField.scsiTagQueues <;>
    cases h8 : reads BattField.scsiHostId <;>
    simp

/-- C4: the battery-memory SCSI host-ID encoding is self-inverse: writing
host ID `n ≤ 7` stores `n XOR 7`, and a subsequent `readBattMem`
un-inverts the stored value to yield exactly `n`; for every input value of
8 or more the host-ID field is not written at all, leaving the previously
stored value unchanged. -/
theorem battmem_host_id_roundtrip (writeOk : BattField → Bool)
    (store : BattStore) (src dest : BattMemData)
    (hok : writeOk BattField.scsiHostId = true) :
    (src.scsi_id ≤ 7 →
      (writeBattMem writeOk store src).2.scsi_host_id = src.scsi_id ^^^ 7 ∧
      (readBattMem (storeReads (writeBattMem writeOk store src).2)
          dest).2.scsi_id = src.scsi_id) ∧
    (8 ≤ src.scsi_id →
      (writeBattMem writeOk store src).2.scsi_host_id =
        store.scsi_host_id) := by
  have hx8 : ∀ n, n < 8 → ((n ^^^ 7) &&& 7) ^^^ 7 = n := by decide
  have hproj : (writeBattMem writeOk store src).2.scsi_host_id =
      if src.scsi_id < 8 then src.scsi_id ^^^ 7 else store.scsi_host_id := by
    unfold writeBattMem
    simp [apply_ite BattStore.scsi_host_id, hok]
  constructor
  · intro hle
    have hlt : src.scsi_id < 8 := by omega
    have hstored : (writeBattMem writeOk store src).2.scsi_host_id =
        src.scsi_id ^^^ 7 := by rw [hproj, if_pos hlt]
    refine ⟨hstored, ?_⟩
    unfold readBattMem
    simp only [storeReads, hstored]
    simp [hx8 src.scsi_id hlt]
  · intro hge
    rw [hproj, if_neg (by omega)]

/-- Witness for `battmem_host_id_roundtrip`: all writes succeed, the store
is initially zero, and the written host IDs are `5` (in range) and `9`
(out of range, applying the second conjunct with `scsi_id := 9`). -/
theorem battmem_host_id_roundtrip_witness :
    ((fun _ : BattField => true) BattField.scsiHostId = true) ∧
    (({ scsi_id := 5 } : BattMemData).scsi_id ≤ 7 →
      (writeBattMem (fun _ => true) {} { scsi_id := 5 }).2.scsi_host_id =
        ({ scsi_id := 5 } : BattMemData).scsi_id ^^^ 7 ∧
      (readBattMem
          (storeReads (writeBattMem (fun _ => true) {} { scsi_id := 5 }).2)
          {}).2.scsi_id = ({ scsi_id := 5 } : BattMemData).scsi_id) ∧
    (8 ≤ ({ scsi_id := 9 } : BattMemData).scsi_id →
      (writeBattMem (fun _ => true) {} { scsi_id := 9 }).2.scsi_host_id =
        ({} : BattStore).scsi_host_id) :=
  ⟨rfl,
   (battmem_host_id_roundtrip (fun _ => true) {} { scsi_id := 5 } {} rfl).1,
   (battmem_host_id_roundtrip (fun _ => true) {} { scsi_id := 9 } {} rfl).2⟩

/-- C5: in `run_dhrystone`'s adaptive loop, a measured elapsed time of
exactly 50 microseconds (below the 100-microsecond fast-system threshold)
makes the next attempt's iteration count exactly 16 times the previous,
capped at 5,000,000; and starting from 1000 iterations with a
50-microsecond elapsed time on every attempt, the loop terminates after
exactly 3 attempts (the 2,000,000-microsecond runtime target is then never
reached, so termination comes from the attempt bound alone). -/
theorem dhry_adaptive_spec (loops : Nat) (h : loops ≤ dhry_max_loops) :
    dhry_next_loops 50 loops = min (16 * loops) dhry_max_loops ∧
    run_dhrystone_attempts (fun _ => 50) = 3 := by
  constructor
  · unfold dhry_next_loops dhry_max_loops
    have h16 : loops * 16 < 2 ^ 32 := by
      unfold dhry_max_loops at h
      omega
    simp only [if_pos (by omega : (50 : Nat) < 100), Nat.mod_eq_of_lt h16]
    unfold dhry_max_loops at h
    split <;> omega
  · decide

/-- Witness for `dhry_adaptive_spec` at `loops = 1000` (the initial
iteration count). -/
theorem dhry_adaptive_spec_witness :
    1000 ≤ dhry_max_loops ∧
    (dhry_next_loops 50 1000 = min (16 * 1000) dhry_max_loops ∧
     run_dhrystone_attempts (fun _ => 50) = 3) :=
  ⟨by decide, dhry_adaptive_spec 1000 (by decide)⟩

/-- C6: the benchmark comment generator picks, among the nine tiers, the
one whose threshold (980 / 1300 / 2000 / 7000 / 30000 / 80000 / 130000 /
200000, all strict greater-than comparisons) is the highest one exceeded,
with the below-baseline default otherwise — so a value of exactly 980
selects the tier below the 980 threshold; the nine inputs 500, 1000, 1500,
2500, 8000, 35000, 85000, 135000, 250000 select all nine tiers in strictly
increasing rank order with no gaps; and without a valid benchmark the
not-available text is selected. -/
theorem generate_comment_tiers :
    (∀ d : Nat, generate_comment true d =
      if d > 200000 then CommentTier.WARP11
      else if d > 130000 then CommentTier.LUDICROUS
      else if d > 80000 then CommentTier.RIDICULUS
      else if d > 30000 then CommentTier.BLAZING
      else if d > 7000 then CommentTier.VERY_FAST
      else if d > 2000 then CommentTier.FAST
      else if d > 1300 then CommentTier.GOOD
      else if d > 980 then CommentTier.CLASSIC
      else CommentTier.DEFAULT) ∧
    List.map (generate_comment true)
        [500, 1000, 1500, 2500, 8000, 35000, 85000, 135000, 250000] =
      [CommentTier.DEFAULT, CommentTier.CLASSIC, CommentTier.GOOD,
       CommentTier.FAST, CommentTier.VERY_FAST, CommentTier.BLAZING,
       CommentTier.RIDICULUS, CommentTier.LUDICROUS, CommentTier.WARP11] ∧
    List.map CommentTier.rank
        (List.map (generate_comment true)
          [500, 1000, 1500, 2500, 8000, 35000, 85000, 135000, 250000]) =
      [0, 1, 2, 3, 4, 5, 6, 7, 8] ∧
    generate_comment true 980 = CommentTier.DEFAULT ∧
    ∀ d : Nat, generate_comment false d = CommentTier.NA := by
  refine ⟨?_, by decide, by decide, by decide, fun d => rfl⟩
  intro d
  simp only [generate_comment]
  split_ifs <;> rfl

/-- C9 counterexample: with a detected soft-kick (base version 40 rev 1,
patch version 45 rev 2, both patch fields non-zero and different from the
base fields) the final list begins with the base "kickstart" entry and the
"kick update" entry comes second — the update entry does NOT appear
earlier in the final list than the base entry, contradicting the claim. -/
theorem prepend_kick_entries_claim_cex :
    soft_kick_detected
      { kickstart_version := 40, kickstart_revision := 1,
        kickstart_patch_version := 45, kickstart_patch_revision := 2,
        kickstart_size := 512 } ∧
    (prepend_kick_entries 10
      { kickstart_version := 40, kickstart_revision := 1,
        kickstart_patch_version := 45, kickstart_patch_revision := 2,
        kickstart_size := 512 } []).map (fun e => e.name) =
      ["kickstart", "kick update"] := by
  refine ⟨by decide, by decide⟩

/-- C9 (amended): when the list has room, the base "kickstart" pseudo-entry
(base ROM version/revision) is always prepended and ends up first, and
exactly under the soft-kick condition (patch version and revision non-zero
and both different from the base ones, base version at least 40) an
additional "kick update" pseudo-entry (patch version/revision) is present,
appearing immediately AFTER the base entry; both pseudo-entries use ROM
base address 0xF80000 when the detected ROM size is at least 512 KB and
0xFC0000 otherwise. -/
theorem prepend_kick_entries_spec (maxEntries : Nat) (hw : KickstartInfo)
    (entries : List SoftwareEntry)
    (hcap : entries.length + 1 < maxEntries) :
    (soft_kick_detected hw →
      prepend_kick_entries maxEntries hw entries =
        kickstart_entry hw :: kick_update_entry hw :: entries) ∧
    (¬ soft_kick_detected hw →
      prepend_kick_entries maxEntries hw entries =
        kickstart_entry hw :: entries) ∧
    (kickstart_entry hw).name = "kickstart" ∧
    (kick_update_entry hw).name = "kick update" ∧
    (kickstart_entry hw).version = hw.kickstart_version ∧
    (kickstart_entry hw).revision = hw.kickstart_revision ∧
    (kick_update_entry hw).version = hw.kickstart_patch_version ∧
    (kick_update_entry hw).revision = hw.kickstart_patch_revision ∧
    (kickstart_entry hw).address =
      (if hw.kickstart_size ≥ 512 then 0x00F80000 else 0x00FC0000) ∧
    (kick_update_entry hw).address =
      (if hw.kickstart_size ≥ 512 then 0x00F80000 else 0x00FC0000) := by
  refine ⟨?_, ?_, rfl, rfl, rfl, rfl, rfl, rfl, rfl, rfl⟩
  · intro h
    simp [prepend_kick_entries, hcap, h]
  · intro h
    simp [prepend_kick_entries, hcap, h]

/-- Witness for `prepend_kick_entries_spec`: capacity 10, an empty entry
list and a soft-kicked ROM (base 40.1, patch 45.2, 512K). -/
theorem prepend_kick_entries_spec_witness :
    ([] : List SoftwareEntry).length + 1 < 10 ∧
    ((soft_kick_detected
        { kickstart_version := 40, kickstart_revision := 1,
          kickstart_patch_version := 45, kickstart_patch_revision := 2,
          kickstart_size := 512 } →
      prepend_kick_entries 10
        { kickstart_version := 40, kickstart_revision := 1,
          kickstart_patch_version := 45, kickstart_patch_revision := 2,
          kickstart_size := 512 } [] =
        kickstart_entry
          { kickstart_version := 40, kickstart_revision := 1,
            kickstart_patch_version := 45, kickstart_patch_revision := 2,
            kickstart_size := 512 } ::
        kick_update_entry
          { kickstart_version := 40, kickstart_revision := 1,
            kickstart_patch_version := 45, kickstart_patch_revision := 2,
            kickstart_size := 512 } :: []) ∧
    (¬ soft_kick_detected
        { kickstart_version := 40, kickstart_revision := 1,
          kickstart_patch_version := 45, kickstart_patch_revision := 2,
          kickstart_size := 512 } →
      prepend_kick_entries 10
        { kickstart_version := 40, kickstart_revision := 1,
          kickstart_patch_version := 45, kickstart_patch_revision := 2,
          kickstart_size := 512 } [] =
        kickstart_entry
          { kickstart_version := 40, kickstart_revision := 1,
            kickstart_patch_version := 45, kickstart_patch_revision := 2,
            kickstart_size := 512 } :: []) ∧
    (kickstart_entry
        { kickstart_version := 40, kickstart_revision := 1,
          kickstart_patch_version := 45, kickstart_patch_revision := 2,
          kickstart_size := 512 }).name = "kickstart" ∧
    (kick_update_entry
        { kickstart_version := 40, kickstart_revision := 1,
          kickstart_patch_version := 45, kickstart_patch_revision := 2,
          kickstart_size := 512 }).name = "kick update" ∧
    (kickstart_entry
        { kickstart_version := 40, kickstart_revision := 1,
          kickstart_patch_version := 45, kickstart_patch_revision := 2,
          kickstart_size := 512 }).version = 40 ∧
    (kickstart_entry
        { kickstart_version := 40, kickstart_revision := 1,
          kickstart_patch_version := 45, kickstart_patch_revision := 2,
          kickstart_size := 512 }).revision = 1 ∧
    (kick_update_entry
        { kickstart_version := 40, kickstart_revision := 1,
          kickstart_patch_version := 45, kickstart_patch_revision := 2,
          kickstart_size := 512 }).version = 45 ∧
    (kick_update_entry
        { kickstart_version := 40, kickstart_revision := 1,
          kickstart_patch_version := 45, kickstart_patch_revision := 2,
          kickstart_size := 512 }).revision = 2 ∧
    (kickstart_entry
        { kickstart_version := 40, kickstart_revision := 1,
          kickstart_patch_version := 45, kickstart_patch_revision := 2,
          kickstart_size := 512 }).address =
      (if (512 : Nat) ≥ 512 then 0x00F80000 else 0x00FC0000) ∧
    (kick_update_entry
        { kickstart_version := 40, kickstart_revision := 1,
          kickstart_patch_version := 45, kickstart_patch_revision := 2,
          kickstart_size := 512 }).address =
      (if (512 : Nat) ≥ 512 then 0x00F80000 else 0x00FC0000)) :=
  ⟨by decide, prepend_kick_entries_spec 10
    { kickstart_version := 40, kickstart_revision := 1,
      kickstart_patch_version := 45, kickstart_patch_revision := 2,
      kickstart_size := 512 } [] (by decide)⟩

/-- C10: `detect_batt_mem` sets the valid-data flag to `TRUE` exactly when
its three gating conditions hold (RP5C01 clock, non-zero memory-controller
revision, battery-memory resource opens), regardless of the result of
`readBattMem`, whose stored boolean is immediately overwritten. -/
theorem detect_batt_mem_valid_iff (c : ClockType) (r : Nat) (o rr : Bool) :
    (detect_batt_mem c r o rr = true ↔
      (c = ClockType.CLOCK_RP5C01 ∧ 0 < r ∧ o = true)) ∧
    detect_batt_mem c r o false = detect_batt_mem c r o true := by
  unfold detect_batt_mem
  constructor
  · split <;> simp_all [Id.run]
  · split <;> simp_all [Id.run]

/-- C8: in text mode the report consists of exactly nine label/value lines
in the order CPU, MMU, FPU, Dhrystones, MIPS, MFLOPS, Chipram speed,
Fastram speed, ROM speed; the CPU/MMU/FPU lines carry the respective name
strings, the MMU line the enabled YES/NO flag; the CPU and FPU values are
the scaled MHz when positive and N/A otherwise; Dhrystones (raw) and MIPS
(scaled) appear only when benchmarks are valid; the MFLOPS value is the
scaled result exactly when an FPU is present, benchmarks are valid and the
FPU is confirmed usable; and each memory speed is scaled exactly when
benchmarks are valid and the measured speed is non-zero, else N/A. -/
theorem text_report_spec (hw : HwReportInfo) (br : BenchmarkResults) :
    (text_report hw br).map (fun l => l.label) =
      ["CPU", "MMU", "FPU", "Dhrystones", "MIPS", "MFLOPS",
       "Chipram speed", "Fastram speed", "ROM speed"] ∧
    (text_report hw br).map (fun l => l.name) =
      [hw.cpu_string, hw.mmu_string, hw.fpu_string, "", "", "", "", "",
       ""] ∧
    (text_report hw br).map (fun l => l.value) =
      [if hw.cpu_mhz > 0 then ReportValue.scaled hw.cpu_mhz
         else ReportValue.na,
       ReportValue.yesno hw.mmu_enabled,
       if hw.fpu_mhz > 0 then ReportValue.scaled hw.fpu_mhz
         else ReportValue.na,
       if br.benchmarks_valid then ReportValue.raw br.dhrystones
         else ReportValue.na,
       if br.benchmarks_valid then ReportValue.scaled br.mips
         else ReportValue.na,
       if hw.fpu_type ≠ FPUType.FPU_NONE ∧ br.benchmarks_valid ∧
           hw.fpu_enabled then ReportValue.scaled br.mflops
         else ReportValue.na,
       if br.benchmarks_valid ∧ br.chip_speed > 0 then
         ReportValue.scaled (br.chip_speed / 10000) else ReportValue.na,
       if br.benchmarks_valid ∧ br.fast_speed > 0 then
         ReportValue.scaled (br.fast_speed / 10000) else ReportValue.na,
       if br.benchmarks_valid ∧ br.rom_speed > 0 then
         ReportValue.scaled (br.rom_speed / 10000) else ReportValue.na] ∧
    (((text_report hw br).map (fun l => l.value))[5]? =
        some (ReportValue.scaled br.mflops) ↔
      (hw.fpu_type ≠ FPUType.FPU_NONE ∧ br.benchmarks_valid = true ∧
        hw.fpu_enabled = true)) ∧
    (((text_report hw br).map (fun l => l.value))[6]? =
        some ReportValue.na ↔
      ¬ (br.benchmarks_valid = true ∧ 0 < br.chip_speed)) ∧
    (((text_report hw br).map (fun l => l.value))[7]? =
        some ReportValue.na ↔
      ¬ (br.benchmarks_valid = true ∧ 0 < br.fast_speed)) ∧
    (((text_report hw br).map (fun l => l.value))[8]? =
        some ReportValue.na ↔
      ¬ (br.benchmarks_valid = true ∧ 0 < br.rom_speed)) := by
  refine ⟨rfl, rfl, rfl, ?_, ?_, ?_, ?_⟩
  · simp only [text_report, List.map, List.getElem?_cons_succ,
      List.getElem?_cons_zero]
    split_ifs with h <;> simp_all
  · simp only [text_report, List.map, List.getElem?_cons_succ,
      List.getElem?_cons_zero]
    split_ifs with h <;> simp_all
  · simp only [text_report, List.map, List.getElem?_cons_succ,
      List.getElem?_cons_zero]
    split_ifs with h <;> simp_all
  · simp only [text_report, List.map, List.getElem?_cons_succ,
      List.getElem?_cons_zero]
    split_ifs with h <;> simp_all

/-- Bits at positions 32 and above of a 32-bit value are clear. -/
theorem testBit_false_of_ge32 (x i : Nat) (hx : x < 2 ^ 32) (hi : 32 ≤ i) :
    x.testBit i = false :=
  Nat.testBit_lt_two_pow
    (Nat.lt_of_lt_of_le hx (Nat.pow_le_pow_right (by omega) hi))

/-- Literal fold: keeper mask and the 68040 instruction-cache bit are
disjoint. -/
theorem and_lit_km_ic : (0x7FFF6EEE &&& 0x8000 : Nat) = 0 := by decide

/-- Literal fold: keeper mask and the copyback bit are disjoint. -/
theorem and_lit_km_cb : (0x7FFF6EEE &&& 0x80000000 : Nat) = 0 := by decide

/-- Literal fold: keeper mask and the instruction group are disjoint. -/
theorem and_lit_km_i2 : (0x7FFF6EEE &&& 0x11 : Nat) = 0 := by decide

/-- Literal fold: keeper mask and the data-cache group are disjoint. -/
theorem and_lit_km_d3 : (0x7FFF6EEE &&& 0x80001100 : Nat) = 0 := by decide

/-- Literal fold for the copyback+instruction-cache intermediate value. -/
theorem and_lit_cbic_ic : (0x80008000 &&& 0x8000 : Nat) = 0x8000 := by decide

/-- Literal fold for the copyback+instruction-cache intermediate value. -/
theorem and_lit_cbic_cb : (0x80008000 &&& 0x80000000 : Nat) = 0x80000000 := by
  decide

/-- Literal fold for the copyback+instruction-cache intermediate value. -/
theorem and_lit_cbic_km : (0x80008000 &&& 0x7FFF6EEE : Nat) = 0 := by decide

/-- Literal fold: copyback and the instruction-cache bit are disjoint. -/
theorem and_lit_cb_ic : (0x80000000 &&& 0x8000 : Nat) = 0 := by decide

/-- Literal fold: copyback and the keeper mask are disjoint. -/
theorem and_lit_cb_km : (0x80000000 &&& 0x7FFF6EEE : Nat) = 0 := by decide

/-- Literal fold: the instruction-cache bit and copyback are disjoint. -/
theorem and_lit_ic_cb : (0x8000 &&& 0x80000000 : Nat) = 0 := by decide

/-- Literal fold: the instruction-cache bit and the keeper mask are
disjoint. -/
theorem and_lit_ic_km : (0x8000 &&& 0x7FFF6EEE : Nat) = 0 := by decide

/-- Literal fold for the full-group round-trip value and the instruction
group. -/
theorem and_lit_d3i2_i2 : (0x80001111 &&& 0x11 : Nat) = 0x11 := by decide

/-- Literal fold: the data-cache group and the instruction group are
disjoint. -/
theorem and_lit_d3_i2 : (0x80001100 &&& 0x11 : Nat) = 0 := by decide

/-- Literal fold for the full-group round-trip value and the data-cache
group. -/
theorem and_lit_d3i2_d3 : (0x80001111 &&& 0x80001100 : Nat) = 0x80001100 := by
  decide

/-- Literal fold: the instruction group and the data-cache group are
disjoint. -/
theorem and_lit_i2_d3 : (0x11 &&& 0x80001100 : Nat) = 0 := by decide

/-- Literal fold for the full-group round-trip value and copyback. -/
theorem and_lit_d3i2_cb : (0x80001111 &&& 0x80000000 : Nat) = 0x80000000 := by
  decide

/-- Literal fold for the data-cache group and copyback. -/
theorem and_lit_d3_cb : (0x80001100 &&& 0x80000000 : Nat) = 0x80000000 := by
  decide

/-- On a 68040-to-68080 CPU, the 030→040→030 round trip of the cache-bit
conversion keeps all bits outside the six cache positions, fills the whole
data-cache group when any of its bits was set, fills the whole instruction
group when any of its bits was set, and clears the 68040 instruction-cache
bit. -/
theorem cache_roundtrip_structure (cpu : CPUType) (input : Nat)
    (hcpu : cpu_is_040_to_080 cpu) :
    convert68040to68030 cpu (convert68030to68040 cpu input) =
      ((if input &&& (CACRF_CopyBack ||| CACRF_EnableD ||| CACRF_DBE) > 0 then
          CACRF_CopyBack ||| CACRF_EnableD ||| CACRF_DBE
        else 0) |||
       (if input &&& (CACRF_EnableI ||| CACRF_IBE) > 0 then
          CACRF_EnableI ||| CACRF_IBE
        else 0)) |||
      (input &&& 0x7FFF6EEE) := by
  by_cases hD : input &&& 0x80001100 > 0 <;>
    by_cases hI : input &&& 0x11 > 0 <;>
    simp [convert68030to68040, convert68040to68030, hcpu, hD, hI,
      CACRF_EnableI, CACRF_IBE, CACRF_EnableD, CACRF_DBE, CACRF_CopyBack,
      CACRF_ICACHE040, ULONG_MAX, Nat.and_distrib_right, Nat.and_assoc,
      and_lit_km_ic, and_lit_km_cb, and_lit_km_i2, and_lit_km_d3,
      and_lit_cbic_ic, and_lit_cbic_cb, and_lit_cbic_km, and_lit_cb_ic,
      and_lit_cb_km, and_lit_ic_cb, and_lit_ic_km, and_lit_d3i2_i2,
      and_lit_d3_i2, and_lit_d3i2_d3, and_lit_i2_d3, and_lit_d3i2_cb,
      and_lit_d3_cb]

/-- C7 counterexample: the claim states that the 030→040→030 round trip
preserves every bit outside the five positions enable-instruction,
enable-data, instruction-burst, data-burst and copyback, and preserves the
"copyback set" semantics.  On a 68040 CPU the round trip of the single
68040 instruction-cache bit (bit 15, outside those five positions, nonzero)
is `0` — the bit is lost; and the round trip of enable-data alone has
copyback set even though the input had copyback clear. -/
theorem cache_convert_roundtrip_claim_cex :
    convert68040to68030 CPUType.CPU_68040
        (convert68030to68040 CPUType.CPU_68040 CACRF_ICACHE040) = 0 ∧
    CACRF_ICACHE040 ≠ 0 ∧
    CACRF_ICACHE040 &&& (CACRF_EnableI ||| CACRF_EnableD ||| CACRF_IBE |||
      CACRF_DBE ||| CACRF_CopyBack) = 0 ∧
    CACRF_EnableD &&& CACRF_CopyBack = 0 ∧
    convert68040to68030 CPUType.CPU_68040
        (convert68030to68040 CPUType.CPU_68040 CACRF_EnableD) &&&
      CACRF_CopyBack > 0 := by
  refine ⟨by decide, by decide, by decide, by decide, by decide⟩

/-- C7 (amended): for every 32-bit input pattern, the 030→040→030 round
trip preserves every bit outside the SIX cache-related positions (the five
earlier-layout bits plus the later layout's combined instruction-cache
bit); it preserves the "any instruction-cache/burst bit set" and "any
data-cache bit set" semantics exactly; a set copyback bit stays set (though
copyback may also become newly set when another data-cache-group bit was
set); and on pre-68040 CPU generations both conversions are the
identity. -/
theorem cache_convert_roundtrip_spec (cpu : CPUType) (input : Nat)
    (hin : input < 2 ^ 32) :
    (∀ i, i ≠ 0 → i ≠ 4 → i ≠ 8 → i ≠ 12 → i ≠ 15 → i ≠ 31 →
      (convert68040to68030 cpu
        (convert68030to68040 cpu input)).testBit i = input.testBit i) ∧
    (convert68040to68030 cpu (convert68030to68040 cpu input) &&&
        (CACRF_EnableI ||| CACRF_IBE) > 0 ↔
      input &&& (CACRF_EnableI ||| CACRF_IBE) > 0) ∧
    (convert68040to68030 cpu (convert68030to68040 cpu input) &&&
        (CACRF_CopyBack ||| CACRF_EnableD ||| CACRF_DBE) > 0 ↔
      input &&& (CACRF_CopyBack ||| CACRF_EnableD ||| CACRF_DBE) > 0) ∧
    (input &&& CACRF_CopyBack > 0 →
      convert68040to68030 cpu (convert68030to68040 cpu input) &&&
        CACRF_CopyBack > 0) ∧
    (cpu.code < CPUType.CPU_68040.code →
      convert68030to68040 cpu input = input ∧
      convert68040to68030 cpu input = input) := by
  by_cases hcpu : cpu_is_040_to_080 cpu
  · have hs := cache_roundtrip_structure cpu input hcpu
    refine ⟨?_, ?_, ?_, ?_, ?_⟩
    · intro i h0 h4 h8 h12 h15 h31
      rw [hs]
      by_cases hi : 32 ≤ i
      · have hlt : (((if input &&& (CACRF_CopyBack ||| CACRF_EnableD |||
              CACRF_DBE) > 0 then
              CACRF_CopyBack ||| CACRF_EnableD ||| CACRF_DBE else 0) |||
            (if input &&& (CACRF_EnableI ||| CACRF_IBE) > 0 then
              CACRF_EnableI ||| CACRF_IBE else 0)) |||
            (input &&& 0x7FFF6EEE)) < 2 ^ 32 := by
          refine Nat.or_lt_two_pow (Nat.or_lt_two_pow ?_ ?_)
            (Nat.and_lt_two_pow input (by decide))
          · split <;> decide
          · split <;> decide
        rw [testBit_false_of_ge32 _ i hlt hi,
          testBit_false_of_ge32 input i hin hi]
      · have hi32 : i < 32 := by omega
        simp only [Nat.testBit_or, Nat.testBit_and]
        split_ifs <;>
          cases hb : input.testBit i <;>
          simp only [hb, Bool.true_and, Bool.false_and, Bool.or_false,
            Bool.or_true] <;>
          interval_cases i <;>
          first
            | omega
            | decide
    · rw [hs]
      by_cases hD : input &&& 0x80001100 > 0 <;>
        by_cases hI : input &&& 0x11 > 0 <;>
        simp [hD, hI, CACRF_EnableI, CACRF_IBE, CACRF_EnableD, CACRF_DBE,
          CACRF_CopyBack, Nat.and_distrib_right, Nat.and_assoc,
          and_lit_km_ic, and_lit_km_cb, and_lit_km_i2, and_lit_km_d3,
          and_lit_cbic_ic, and_lit_cbic_cb, and_lit_cbic_km, and_lit_cb_ic,
          and_lit_cb_km, and_lit_ic_cb, and_lit_ic_km, and_lit_d3i2_i2,
          and_lit_d3_i2, and_lit_d3i2_d3, and_lit_i2_d3, and_lit_d3i2_cb,
          and_lit_d3_cb]
    · rw [hs]
      by_cases hD : input &&& 0x80001100 > 0 <;>
        by_cases hI : input &&& 0x11 > 0 <;>
        simp [hD, hI, CACRF_EnableI, CACRF_IBE, CACRF_EnableD, CACRF_DBE,
          CACRF_CopyBack, Nat.and_distrib_right, Nat.and_assoc,
          and_lit_km_ic, and_lit_km_cb, and_lit_km_i2, and_lit_km_d3,
          and_lit_cbic_ic, and_lit_cbic_cb, and_lit_cbic_km, and_lit_cb_ic,
          and_lit_cb_km, and_lit_ic_cb, and_lit_ic_km, and_lit_d3i2_i2,
          and_lit_d3_i2, and_lit_d3i2_d3, and_lit_i2_d3, and_lit_d3i2_cb,
          and_lit_d3_cb]
    · intro hCB
      have hCB' : input &&& 0x80000000 > 0 := by
        simpa [CACRF_CopyBack] using hCB
      have hD : input &&& 0x80001100 > 0 := by
        rcases Nat.eq_zero_or_pos (input &&& 0x80001100) with h0 | hpos
        · exfalso
          have hz : input &&& 0x80000000 = 0 := by
            have hc := congrArg (fun z => z &&& 0x80000000) h0
            simpa [Nat.and_assoc] using hc
          omega
        · exact hpos
      rw [hs]
      by_cases hI : input &&& 0x11 > 0 <;>
        simp [hD, hI, CACRF_EnableI, CACRF_IBE, CACRF_EnableD, CACRF_DBE,
          CACRF_CopyBack, Nat.and_distrib_right, Nat.and_assoc,
          and_lit_km_ic, and_lit_km_cb, and_lit_km_i2, and_lit_km_d3,
          and_lit_cbic_ic, and_lit_cbic_cb, and_lit_cbic_km, and_lit_cb_ic,
          and_lit_cb_km, and_lit_ic_cb, and_lit_ic_km, and_lit_d3i2_i2,
          and_lit_d3_i2, and_lit_d3i2_d3, and_lit_i2_d3, and_lit_d3i2_cb,
          and_lit_d3_cb]
    · intro hlt
      simp only [cpu_is_040_to_080, CPUType.code] at hcpu
      simp only [CPUType.code] at hlt
      exact absurd hcpu.1 (by omega)
  · have h30 : convert68030to68040 cpu input = input := by
      unfold convert68030to68040
      rw [if_neg hcpu]
    have h40 : ∀ x : Nat, convert68040to68030 cpu x = x := by
      intro x
      unfold convert68040to68030
      rw [if_neg hcpu]
    refine ⟨?_, ?_, ?_, ?_, ?_⟩ <;> simp [h30, h40]

/-- Witness for `cache_convert_roundtrip_spec` on a 68040 CPU with the
concrete 32-bit input `0x12345678`. -/
theorem cache_convert_roundtrip_spec_witness :
    (0x12345678 : Nat) < 2 ^ 32 ∧
    ((∀ i, i ≠ 0 → i ≠ 4 → i ≠ 8 → i ≠ 12 → i ≠ 15 → i ≠ 31 →
      (convert68040to68030 CPUType.CPU_68040
        (convert68030to68040 CPUType.CPU_68040 0x12345678)).testBit i =
        (0x12345678 : Nat).testBit i) ∧
    (convert68040to68030 CPUType.CPU_68040
        (convert68030to68040 CPUType.CPU_68040 0x12345678) &&&
        (CACRF_EnableI ||| CACRF_IBE) > 0 ↔
      (0x12345678 : Nat) &&& (CACRF_EnableI ||| CACRF_IBE) > 0) ∧
    (convert68040to68030 CPUType.CPU_68040
        (convert68030to68040 CPUType.CPU_68040 0x12345678) &&&
        (CACRF_CopyBack ||| CACRF_EnableD ||| CACRF_DBE) > 0 ↔
      (0x12345678 : Nat) &&&
        (CACRF_CopyBack ||| CACRF_EnableD ||| CACRF_DBE) > 0) ∧
    ((0x12345678 : Nat) &&& CACRF_CopyBack > 0 →
      convert68040to68030 CPUType.CPU_68040
        (convert68030to68040 CPUType.CPU_68040 0x12345678) &&&
        CACRF_CopyBack > 0) ∧
    (CPUType.CPU_68040.code < CPUType.CPU_68040.code →
      convert68030to68040 CPUType.CPU_68040 0x12345678 = 0x12345678 ∧
      convert68040to68030 CPUType.CPU_68040 0x12345678 = 0x12345678)) :=
  ⟨by decide, cache_convert_roundtrip_spec CPUType.CPU_68040 0x12345678
    (by decide)⟩

end XSysInfo
